import Mathlib

/-!
# Portfolio page behaviours (`script.js`)

A shallow embedding of the `DOMContentLoaded` callback of `script.js` and of the
three handlers it registers (form submit, fragment-anchor click, intersection
observer callback), together with the properties of the specification that are
settled on it.

The document is a list of elements in tree order; an element is referred to by
its position in that list.  The host capabilities used by the script
(`getElementById`, `querySelectorAll`, `querySelector`, `classList.add`,
`HTMLFormElement.reset`, `alert`, `scrollIntoView`, the intersection observer) are
modelled next to the code that calls them.

Scope of the host model: the document is in no-quirks mode; visible ratios are
rational numbers; the observer reports `isIntersecting` when the visible ratio has
reached its threshold; named properties of a form are modelled for the `reset`
call of the submit handler, and every other member access of the script
(`addEventListener`, `style`, `scrollIntoView`, the methods of `document`) is taken
to reach the member of the interface.
-/

namespace Portfolio

/-! ## Strings -/

/-- The method `String.prototype.split` for a one-character separator, on the characters of
the string: the result is never empty, and an empty string gives one empty piece. -/
def split (sep : Char) : List Char → List (List Char)
  | [] => [[]]
  | c :: cs =>
    if c = sep then [] :: split sep cs
    else
      match split sep cs with
      | seg :: rest => (c :: seg) :: rest
      | [] => [[c]]

/-- The method `Array.prototype.pop` as used on a fresh array: the last item, `none` (the
value `undefined`) for an empty array. -/
def pop (xs : List (List Char)) : Option (List Char) := xs.getLast?

/-- Line 64: `window.location.pathname.split('/').pop() || 'index.html'`.
The right operand of `||` is taken when the left one is `undefined` or the empty
string. -/
def currentPage (pathname : String) : String :=
  match pop (split '/' pathname.data) with
  | some seg => if seg = [] then "index.html" else String.mk seg
  | none => "index.html"

/-! ## Document model -/

/-- Exceptions that the script or the host can raise. -/
inductive JSError where
  | TypeError
  | SyntaxError
  deriving DecidableEq, Repr

/-- The three inline style properties written by the script. -/
structure Style where
  opacity : String
  transform : String
  transition : String
  deriving DecidableEq, Repr

/-- An element of the document. `tag` is the local name in lower case, `parent` is
the position of the parent element,
`value` is the `value` property (`none` when the element has none, which reads as
`undefined`), `defaultValue` is the value restored by the reset algorithm of a
form control, `form` is the position of its form owner, and `name` and `type` are
the content attributes of these names. -/
structure Element where
  tag : String
  id : Option String
  classList : List String
  href : Option String
  parent : Option Nat
  style : Style
  value : Option String
  defaultValue : String
  form : Option Nat
  name : Option String
  type : Option String
  deriving DecidableEq, Repr

/-- One call of `scrollIntoView` on `target` with its options. -/
structure ScrollRequest where
  target : Nat
  behavior : String
  block : String
  deriving DecidableEq, Repr

/-- An `IntersectionObserverEntry` as far as the callback and the specification
look at it. -/
structure IntersectionObserverEntry where
  target : Nat
  isIntersecting : Bool
  intersectionRatio : ℚ
  deriving DecidableEq

/-- The options an intersection observer is created with. -/
structure ObserverOptions where
  threshold : ℚ
  rootMargin : String
  deriving DecidableEq

/-- What the host measures for a target when it computes intersections: the part
of the target's area that lies in the root, the root being taken with the
observer's `rootMargin` applied. -/
structure Observation where
  target : Nat
  intersectionRatio : ℚ
  deriving DecidableEq

/-- The page: the document and what the script has done to the host so far. -/
structure Page where
  dom : List Element
  console : List String
  alerts : List String
  scrolls : List ScrollRequest
  submitListeners : List Nat
  clickListeners : List Nat
  observed : List Nat
  deriving DecidableEq

/-- What running a callback leaves behind: the page, whether `preventDefault` was
called on the event, and the exception that ended the callback, if any. -/
structure Outcome where
  page : Page
  defaultPrevented : Bool
  thrown : Option JSError
  deriving DecidableEq

/-- A freshly parsed document, before the script has run. -/
def Page.load (doc : List Element) : Page :=
  { dom := doc, console := [], alerts := [], scrolls := [],
    submitListeners := [], clickListeners := [], observed := [] }

/-- Replace the element at position `i` by its image under `f`. -/
def modifyElement (dom : List Element) (i : Nat) (f : Element → Element) : List Element :=
  match dom[i]? with
  | some e => dom.set i (f e)
  | none => dom

/-! ## Host queries -/

/-- Positions of the elements accepted by a matcher, in tree order
(`querySelectorAll` returns a static list without repetition). -/
def querySelectorAll (m : List Element → Nat → Bool) (dom : List Element) : List Nat :=
  (List.range dom.length).filter (m dom)

/-- The first element in tree order whose id is `id`, as `getElementById`. -/
def getElementById (dom : List Element) (id : String) : Option Nat :=
  (querySelectorAll (fun d i => decide ((d[i]?).bind Element.id = some id)) dom).head?

/-- The ancestors of the element at `i`, nearest first. -/
def ancestors (dom : List Element) : Nat → Nat → List Nat
  | 0, _ => []
  | fuel + 1, i =>
    match (dom[i]?).bind Element.parent with
    | some p => p :: ancestors dom fuel p
    | none => []

/-- Selector `a[href^="#"]` of line 25. -/
def matchesFragmentAnchor (dom : List Element) (i : Nat) : Bool :=
  match dom[i]? with
  | some e =>
    e.tag == "a" &&
      (match e.href with
       | some h => h.data.head? == some '#'
       | none => false)
  | none => false

/-- Selector `.skill-card, .project-card, .stat-card` of line 55. -/
def matchesAnimated (dom : List Element) (i : Nat) : Bool :=
  match dom[i]? with
  | some e =>
    decide ("skill-card" ∈ e.classList) || decide ("project-card" ∈ e.classList) ||
      decide ("stat-card" ∈ e.classList)
  | none => false

/-- Selector `.nav-links a` of line 65: an `a` element below an element of class
`nav-links`. -/
def matchesNavLink (dom : List Element) (i : Nat) : Bool :=
  match dom[i]? with
  | some e =>
    e.tag == "a" &&
      (ancestors dom dom.length i).any fun j =>
        match dom[j]? with
        | some a => decide ("nav-links" ∈ a.classList)
        | none => false
  | none => false

/-- Characters of an identifier that needs no escaping in a selector. -/
def isNameChar (c : Char) : Bool :=
  c.isAlpha || c.isDigit || c == '_' || c == '-'

/-- Whether the characters form an identifier: name characters only, starting with
a letter or `_`, or with `-` followed by a letter, `_` or `-`. -/
def isSimpleIdent : List Char → Bool
  | [] => false
  | c :: cs =>
    (c :: cs).all isNameChar &&
      (c.isAlpha || c == '_' ||
        (c == '-' &&
          match cs with
          | d :: _ => d.isAlpha || d == '_' || d == '-'
          | [] => false))

/-- The host's `document.querySelector` on the selectors the click handler can
pass. A lone `#` is not a selector and raises `SyntaxError`; `#` followed by a plain
identifier is an id selector and gives the first element with that id (document in
no-quirks mode); `#` followed by name characters that do not form an identifier
(`#1a`, `#-`) is a hash token that is no id selector and raises `SyntaxError`; every
other selector text is left to `engine`, which stands for the rest of the host's
selector grammar. -/
def querySelector (engine : List Element → String → Except JSError (Option Nat))
    (dom : List Element) (selectors : String) : Except JSError (Option Nat) :=
  match selectors.data with
  | '#' :: rest =>
    if rest = [] then Except.error JSError.SyntaxError
    else if isSimpleIdent rest then Except.ok (getElementById dom (String.mk rest))
    else if rest.all isNameChar then Except.error JSError.SyntaxError
    else engine dom selectors
  | _ => engine dom selectors

/-- Conversion of the result of `getAttribute` to the string a DOM method receives. -/
def attrToString : Option String → String
  | some s => s
  | none => "null"

/-- Conversion of a property value inside a template literal. -/
def valueToString : Option String → String
  | some s => s
  | none => "undefined"

/-- The `value` property of the element at `i`. -/
def valueOf (dom : List Element) (i : Nat) : Option String :=
  (dom[i]?).bind Element.value

/-- The method `classList.add`: the token is appended unless it is already present. -/
def classListAdd (e : Element) (token : String) : Element :=
  if token ∈ e.classList then e else { e with classList := e.classList ++ [token] }

/-- Elements that the reset algorithm of a form acts on. -/
def isResettable (e : Element) : Bool :=
  e.tag == "input" || e.tag == "textarea" || e.tag == "select" || e.tag == "output"

/-- The method `HTMLFormElement.reset` on the form at position `f`: every resettable element
whose form owner is `f` gets its default value back. -/
def reset (dom : List Element) (f : Nat) : List Element :=
  dom.map fun e =>
    if e.form = some f ∧ isResettable e = true then { e with value := some e.defaultValue }
    else e

/-- The string with its ASCII upper-case letters replaced by lower-case ones. -/
def asciiLower (s : String) : String :=
  String.mk (s.data.map Char.toLower)

/-- The elements that contribute names to the named properties of their form:
listed elements, except an `input` whose type is `image`, and `img` elements. -/
def contributesName (e : Element) : Bool :=
  ((e.tag == "button" || e.tag == "fieldset" || e.tag == "input" || e.tag == "object" ||
      e.tag == "output" || e.tag == "select" || e.tag == "textarea") &&
    !(e.tag == "input" &&
      match e.type with
      | some t => asciiLower t == "image"
      | none => false)) ||
  e.tag == "img"

/-- Whether the form at position `f` has a named property `prop`: an element that
contributes names, whose form owner is `f` and whose id or name is `prop`. Such a
property takes precedence over the members of the form's interface, methods
included. -/
def hasNamedProperty (dom : List Element) (f : Nat) (prop : String) : Bool :=
  dom.any fun e =>
    decide (e.form = some f) && contributesName e &&
      (decide (e.id = some prop) || decide (e.name = some prop))

/-! ## The script -/

/-- Line 17: the text of the acknowledgment. -/
def acknowledgment (name email : String) : String :=
  "Thank you, " ++ name ++ "! Your message has been received. We'll get back to you at " ++
    email ++ " soon."

/-- Lines 9-21: the submit listener of the element `contactForm`.
Reading `.value` of a missing element raises `TypeError`, and so does calling
`reset` on an element that is not a form, or on a form where a control with the id
or name `reset` takes the place of the method. -/
def submitHandler (contactForm : Nat) (s : Page) : Outcome :=
  -- e.preventDefault()
  match getElementById s.dom "name" with
  | none => ⟨s, true, some JSError.TypeError⟩
  | some n =>
    match getElementById s.dom "email" with
    | none => ⟨s, true, some JSError.TypeError⟩
    | some m =>
      match getElementById s.dom "message" with
      | none => ⟨s, true, some JSError.TypeError⟩
      | some _ =>
        let name := valueToString (valueOf s.dom n)
        let email := valueToString (valueOf s.dom m)
        let s1 := { s with alerts := s.alerts ++ [acknowledgment name email] }
        match s.dom[contactForm]? with
        | some f =>
          if f.tag = "form" then
            if hasNamedProperty s1.dom contactForm "reset" then
              ⟨s1, true, some JSError.TypeError⟩
            else ⟨{ s1 with dom := reset s1.dom contactForm }, true, none⟩
          else ⟨s1, true, some JSError.TypeError⟩
        | none => ⟨s1, true, some JSError.TypeError⟩

/-- Lines 27-36: the click listener of the anchor `this`. -/
def clickHandler (engine : List Element → String → Except JSError (Option Nat))
    (this : Nat) (s : Page) : Outcome :=
  -- e.preventDefault()
  match querySelector engine s.dom (attrToString ((s.dom[this]?).bind Element.href)) with
  | Except.error err => ⟨s, true, some err⟩
  | Except.ok none => ⟨s, true, none⟩
  | Except.ok (some target) =>
    ⟨{ s with scrolls := s.scrolls ++ [⟨target, "smooth", "start"⟩] }, true, none⟩

/-- Lines 48-49: the two style assignments on `entry.target`. -/
def reveal (e : Element) : Element :=
  { e with style := { e.style with opacity := "1", transform := "translateY(0)" } }

/-- Lines 47-50: what the observer callback does with one entry. -/
def revealEntry (dom : List Element) (entry : IntersectionObserverEntry) : List Element :=
  if entry.isIntersecting then modifyElement dom entry.target reveal else dom

/-- Lines 40-43: the options of the observer. -/
def observerOptions : ObserverOptions :=
  { threshold := 1 / 10, rootMargin := "0px 0px -50px 0px" }

/-- The entry the host builds from an observation for an observer with the given
options: `isIntersecting` is true when the visible ratio has reached the
threshold. -/
def entryOf (options : ObserverOptions) (o : Observation) : IntersectionObserverEntry :=
  { target := o.target
    isIntersecting := decide (options.threshold ≤ o.intersectionRatio)
    intersectionRatio := o.intersectionRatio }

/-- Lines 45-52: the callback of the intersection observer. -/
def observerCallback (entries : List IntersectionObserverEntry) (s : Page) : Outcome :=
  ⟨{ s with dom := entries.foldl revealEntry s.dom }, false, none⟩

/-- Lines 57-59: the initial style of an animated element. -/
def hideElement (e : Element) : Element :=
  { e with style :=
      { opacity := "0", transform := "translateY(20px)",
        transition := "opacity 0.5s ease, transform 0.5s ease" } }

/-- Lines 67-69: the body of the loop over the navigation links, on one link. -/
def markIfCurrent (page : String) (link : Element) : Element :=
  if link.href = some page then classListAdd link "active" else link

/-- Lines 66-70: the loop over the navigation links. -/
def markActive (page : String) (dom : List Element) (navLinks : List Nat) : List Element :=
  navLinks.foldl (fun d i => modifyElement d i (markIfCurrent page)) dom

/-- Lines 2-71: the `DOMContentLoaded` listener, run on the loaded document with
`window.location.pathname = pathname`. -/
def DOMContentLoaded (pathname : String) (doc : List Element) : Outcome :=
  let s0 := Page.load doc
  let s1 := { s0 with console := s0.console ++ ["Portfolio website loaded successfully!"] }
  -- lines 7-22
  let s2 :=
    match getElementById s1.dom "contactForm" with
    | some contactForm => { s1 with submitListeners := s1.submitListeners ++ [contactForm] }
    | none => s1
  -- lines 25-37
  let links := querySelectorAll matchesFragmentAnchor s2.dom
  let s3 := { s2 with clickListeners := s2.clickListeners ++ links }
  -- lines 55-61
  let animatedElements := querySelectorAll matchesAnimated s3.dom
  let s4 :=
    { s3 with
      dom := animatedElements.foldl (fun d i => modifyElement d i hideElement) s3.dom
      observed := animatedElements.foldl (fun o i => if i ∈ o then o else o ++ [i]) s3.observed }
  -- lines 64-70
  let navLinks := querySelectorAll matchesNavLink s4.dom
  ⟨{ s4 with dom := markActive (currentPage pathname) s4.dom navLinks }, false, none⟩

/-! ## Event delivery -/

/-- A submit event reaching the element `target`. -/
def submit (target : Nat) (s : Page) : Outcome :=
  if target ∈ s.submitListeners then submitHandler target s else ⟨s, false, none⟩

/-- A click event reaching the element `target`. -/
def click (engine : List Element → String → Except JSError (Option Nat))
    (target : Nat) (s : Page) : Outcome :=
  if target ∈ s.clickListeners then clickHandler engine target s else ⟨s, false, none⟩

/-- The entries of one delivery: those of the observed targets among the
observations, built for the observer of lines 40-52. -/
def entriesOf (observed : List Nat) (batch : List Observation) :
    List IntersectionObserverEntry :=
  (batch.filter fun o => decide (o.target ∈ observed)).map (entryOf observerOptions)

/-- Delivery of successive batches of observations to the observer callback. -/
def deliver (batches : List (List Observation)) (s : Page) : Page :=
  batches.foldl (fun p b => (observerCallback (entriesOf p.observed b) p).page) s

/-- The end state of the reveal: opacity `1` and no vertical offset. -/
def revealed (e : Element) : Prop :=
  e.style.opacity = "1" ∧ e.style.transform = "translateY(0)"

instance (e : Element) : Decidable (revealed e) := by
  unfold revealed; infer_instance

/-! ## Reading the page -/

/-- The call `classList.contains(token)` on the element at `i`. -/
def classListContains (dom : List Element) (i : Nat) (token : String) : Bool :=
  match dom[i]? with
  | some e => decide (token ∈ e.classList)
  | none => false

/-- The call `getAttribute('href')` on the element at `i`; `none` is `null`. -/
def getAttributeHref (dom : List Element) (i : Nat) : Option String :=
  (dom[i]?).bind Element.href

/-- The inline style of the element at `i`. -/
def styleOf (dom : List Element) (i : Nat) : Option Style :=
  (dom[i]?).map Element.style

/-! ## Sample documents -/

/-- An element with the given tag, no attributes and an empty inline style. -/
def blank (tag : String) : Element :=
  { tag := tag, id := none, classList := [], href := none, parent := none,
    style := ⟨"", "", ""⟩, value := none, defaultValue := "", form := none,
    name := none, type := none }

/-- A page with a navigation bar, a fragment anchor with its target, a card, the
contact form with its three fields, and a bare `#` anchor. -/
def samplePage : List Element :=
  [ { blank "nav" with classList := ["nav-links"] },
    { blank "a" with href := some "index.html", parent := some 0 },
    { blank "a" with href := some "projects.html", parent := some 0 },
    { blank "a" with href := some "#about", parent := some 0 },
    { blank "section" with id := some "about" },
    { blank "div" with classList := ["card", "skill-card"] },
    { blank "form" with id := some "contactForm" },
    { blank "input" with id := some "name", value := some "Ada", form := some 6, parent := some 6 },
    { blank "input" with
      id := some "email", value := some "ada@example.com", form := some 6, parent := some 6 },
    { blank "textarea" with
      id := some "message", value := some "Hi", form := some 6, parent := some 6 },
    { blank "a" with href := some "#" } ]

/-- A navigation bar whose logo and whose first entry both link to `index.html`. -/
def twoHomeLinks : List Element :=
  [ { blank "nav" with classList := ["nav-links"] },
    { blank "a" with href := some "index.html", parent := some 0, classList := ["logo"] },
    { blank "a" with href := some "index.html", parent := some 0 },
    { blank "a" with href := some "projects.html", parent := some 0 } ]

/-- A document that consists of one skill card. -/
def oneCard : List Element :=
  [ { blank "div" with classList := ["skill-card"] } ]

/-- A contact form whose name field is prefilled by the markup
(`<input id="name" value="Your name">`) and now holds what the user typed. -/
def prefilledForm : List Element :=
  [ { blank "form" with id := some "contactForm" },
    { blank "input" with
      id := some "name", value := some "Ada", defaultValue := "Your name", form := some 0,
      parent := some 0 },
    { blank "input" with
      id := some "email", value := some "ada@example.com", form := some 0, parent := some 0 },
    { blank "textarea" with
      id := some "message", value := some "Hi", form := some 0, parent := some 0 } ]

/-- A contact form with its three fields filled in and a reset button written
`<button type="reset" id="reset">`. -/
def formWithResetButton : List Element :=
  [ { blank "form" with id := some "contactForm" },
    { blank "input" with id := some "name", value := some "Ada", form := some 0, parent := some 0 },
    { blank "input" with
      id := some "email", value := some "ada@example.com", form := some 0, parent := some 0 },
    { blank "textarea" with
      id := some "message", value := some "Hi", form := some 0, parent := some 0 },
    { blank "button" with
      id := some "reset", type := some "reset", form := some 0, parent := some 0 } ]

/-- A fragment anchor whose target has an id that starts with a digit. -/
def digitIdPage : List Element :=
  [ { blank "a" with href := some "#1a" },
    { blank "div" with id := some "1a" } ]

/-- A fragment anchor whose target is missing from the page. -/
def danglingAnchor : List Element :=
  [ { blank "a" with href := some "#about" },
    { blank "section" with id := some "contact" } ]

/-- A contact form without any of its fields. -/
def formWithoutFields : List Element :=
  [ { blank "form" with id := some "contactForm" } ]

/-- A selector engine that matches nothing. -/
def matchNothing : List Element → String → Except JSError (Option Nat) :=
  fun _ _ => Except.ok none

/-! ### Facts about the document model -/

theorem getElem?_modifyElement (d : List Element) (i j : Nat) (f : Element → Element) :
    (modifyElement d i f)[j]? = if i = j then (d[j]?).map f else d[j]? := by
  unfold modifyElement
  split
  · rename_i e he
    rw [List.getElem?_set]
    by_cases hij : i = j
    · subst hij
      have hlt : i < d.length := by
        by_contra hge
        rw [List.getElem?_eq_none (by omega)] at he
        exact Option.noConfusion he
      simp [he, hlt]
    · simp [hij]
  · rename_i he
    by_cases hij : i = j
    · subst hij; simp [he]
    · simp [hij]

theorem getElem?_foldl_modifyElement (f : Element → Element) (hf : ∀ e, f (f e) = f e)
    (is : List Nat) (d : List Element) (j : Nat) :
    (is.foldl (fun d i => modifyElement d i f) d)[j]? =
      if j ∈ is then (d[j]?).map f else d[j]? := by
  induction is generalizing d with
  | nil => simp
  | cons i is ih =>
    rw [List.foldl_cons, ih, getElem?_modifyElement]
    by_cases hij : i = j
    · subst hij
      cases d[i]? <;> simp [hf]
    · have hji : j ≠ i := fun e => hij e.symm
      simp [hij, hji]

theorem length_eq_of_getElem?_map {β : Type} (π : Element → β) (d d' : List Element)
    (h : ∀ k : Nat, (d'[k]?).map π = (d[k]?).map π) : d'.length = d.length := by
  rcases Nat.lt_trichotomy d'.length d.length with hlt | heq | hgt
  · have := h d'.length
    rw [List.getElem?_eq_none (le_refl _), List.getElem?_eq_getElem hlt] at this
    simp at this
  · exact heq
  · have := h d.length
    rw [List.getElem?_eq_none (le_refl _), List.getElem?_eq_getElem hgt] at this
    simp at this

theorem hideElement_idem (e : Element) : hideElement (hideElement e) = hideElement e := rfl

theorem classListAdd_idem (e : Element) (t : String) :
    classListAdd (classListAdd e t) t = classListAdd e t := by
  unfold classListAdd
  by_cases h : t ∈ e.classList
  · simp [h]
  · simp [h]

theorem href_classListAdd (e : Element) (t : String) : (classListAdd e t).href = e.href := by
  unfold classListAdd
  split <;> rfl

theorem style_classListAdd (e : Element) (t : String) : (classListAdd e t).style = e.style := by
  unfold classListAdd
  split <;> rfl

theorem markIfCurrent_idem (page : String) (e : Element) :
    markIfCurrent page (markIfCurrent page e) = markIfCurrent page e := by
  unfold markIfCurrent
  by_cases h : e.href = some page
  · simp [h, href_classListAdd, classListAdd_idem]
  · simp [h]

theorem href_markIfCurrent (page : String) (e : Element) :
    (markIfCurrent page e).href = e.href := by
  unfold markIfCurrent
  split
  · exact href_classListAdd e _
  · rfl

theorem style_markIfCurrent (page : String) (e : Element) :
    (markIfCurrent page e).style = e.style := by
  unfold markIfCurrent
  split
  · exact style_classListAdd e _
  · rfl

/-- With `"active"` absent beforehand, the loop body leaves it exactly on a link
whose href is the page name. -/
theorem active_mem_markIfCurrent (page : String) (e : Element)
    (h : "active" ∉ e.classList) :
    "active" ∈ (markIfCurrent page e).classList ↔ e.href = some page := by
  unfold markIfCurrent classListAdd
  by_cases hp : e.href = some page
  · simp [hp, h]
  · simp [hp, h]

theorem ancestors_congr (d d' : List Element)
    (h : ∀ k : Nat, (d'[k]?).bind Element.parent = (d[k]?).bind Element.parent)
    (fuel i : Nat) : ancestors d' fuel i = ancestors d fuel i := by
  induction fuel generalizing i with
  | zero => rfl
  | succ n ih =>
    unfold ancestors
    rw [h i]
    cases (d[i]?).bind Element.parent with
    | none => rfl
    | some p => simp [ih p]

/-- The tag, class list and parent of an element: what `.nav-links a` reads. -/
theorem matchesNavLink_congr (d d' : List Element)
    (h : ∀ k : Nat, (d'[k]?).map (fun e => (e.tag, e.classList, e.parent)) =
      (d[k]?).map (fun e => (e.tag, e.classList, e.parent))) :
    matchesNavLink d' = matchesNavLink d := by
  have hlen := length_eq_of_getElem?_map _ d d' h
  have hpar : ∀ k : Nat, (d'[k]?).bind Element.parent = (d[k]?).bind Element.parent := by
    intro k
    have := h k
    cases h1 : d'[k]? <;> cases h2 : d[k]? <;> simp [h1, h2] at this ⊢
    exact this.2.2
  have hcls : ∀ k : Nat, (match d'[k]? with
      | some a => decide ("nav-links" ∈ a.classList)
      | none => false) = (match d[k]? with
      | some a => decide ("nav-links" ∈ a.classList)
      | none => false) := by
    intro k
    have := h k
    cases h1 : d'[k]? <;> cases h2 : d[k]? <;> simp [h1, h2] at this ⊢
    rw [this.2.1]
  funext i
  unfold matchesNavLink
  rw [hlen, ancestors_congr d d' hpar]
  have hi := h i
  cases h1 : d'[i]? <;> cases h2 : d[i]? <;> simp [h1, h2] at hi ⊢
  rw [hi.1]
  rw [funext hcls]

theorem querySelectorAll_nodup (m : List Element → Nat → Bool) (d : List Element) :
    (querySelectorAll m d).Nodup :=
  (List.nodup_range _).filter _

theorem mem_querySelectorAll (m : List Element → Nat → Bool) (d : List Element) (i : Nat) :
    i ∈ querySelectorAll m d ↔ i < d.length ∧ m d i = true := by
  simp [querySelectorAll, List.mem_filter]

theorem foldl_observe (l o : List Nat) (hl : l.Nodup) (hd : ∀ x ∈ l, x ∉ o) :
    l.foldl (fun o i => if i ∈ o then o else o ++ [i]) o = o ++ l := by
  induction l generalizing o with
  | nil => simp
  | cons a l ih =>
    have ha : a ∉ o := hd a (by simp)
    have hnd := List.nodup_cons.1 hl
    rw [List.foldl_cons, if_neg ha, ih (o ++ [a]) hnd.2]
    · simp
    · intro x hx hmem
      rcases List.mem_append.1 hmem with h | h
      · exact hd x (by simp [hx]) h
      · have : x = a := by simpa using h
        exact hnd.1 (this ▸ hx)

theorem navLinks_hide (doc : List Element) (is : List Nat) :
    querySelectorAll matchesNavLink (is.foldl (fun d i => modifyElement d i hideElement) doc) =
      querySelectorAll matchesNavLink doc := by
  have h : ∀ k : Nat,
      ((is.foldl (fun d i => modifyElement d i hideElement) doc)[k]?).map
          (fun e => (e.tag, e.classList, e.parent)) =
        (doc[k]?).map (fun e => (e.tag, e.classList, e.parent)) := by
    intro k
    rw [getElem?_foldl_modifyElement _ hideElement_idem]
    split
    · cases doc[k]? <;> simp [hideElement]
    · rfl
  unfold querySelectorAll
  rw [matchesNavLink_congr _ _ h, length_eq_of_getElem?_map _ _ _ h]

/-- The document after the `DOMContentLoaded` listener, element by element. -/
theorem dom_DOMContentLoaded (pathname : String) (doc : List Element) (j : Nat) :
    (DOMContentLoaded pathname doc).page.dom[j]? =
      (doc[j]?).map fun e =>
        let e1 := if j ∈ querySelectorAll matchesAnimated doc then hideElement e else e
        if j ∈ querySelectorAll matchesNavLink doc then markIfCurrent (currentPage pathname) e1
        else e1 := by
  have hdom : (DOMContentLoaded pathname doc).page.dom =
      markActive (currentPage pathname)
        ((querySelectorAll matchesAnimated doc).foldl
          (fun d i => modifyElement d i hideElement) doc)
        (querySelectorAll matchesNavLink
          ((querySelectorAll matchesAnimated doc).foldl
            (fun d i => modifyElement d i hideElement) doc)) := by
    unfold DOMContentLoaded Page.load
    dsimp only
    cases getElementById doc "contactForm" <;> rfl
  rw [hdom, navLinks_hide]
  unfold markActive
  rw [getElem?_foldl_modifyElement _ (markIfCurrent_idem _),
    getElem?_foldl_modifyElement _ hideElement_idem]
  cases doc[j]? with
  | none => simp
  | some e =>
    by_cases h1 : j ∈ querySelectorAll matchesNavLink doc <;>
      by_cases h2 : j ∈ querySelectorAll matchesAnimated doc <;> simp [h1, h2]

theorem observed_DOMContentLoaded (pathname : String) (doc : List Element) :
    (DOMContentLoaded pathname doc).page.observed = querySelectorAll matchesAnimated doc := by
  have h : (DOMContentLoaded pathname doc).page.observed =
      (querySelectorAll matchesAnimated doc).foldl
        (fun o i => if i ∈ o then o else o ++ [i]) [] := by
    unfold DOMContentLoaded Page.load
    dsimp only
    cases getElementById doc "contactForm" <;> rfl
  rw [h, foldl_observe _ _ (querySelectorAll_nodup _ _) (by simp)]
  simp

theorem clickListeners_DOMContentLoaded (pathname : String) (doc : List Element) :
    (DOMContentLoaded pathname doc).page.clickListeners =
      querySelectorAll matchesFragmentAnchor doc := by
  unfold DOMContentLoaded Page.load
  dsimp only
  cases getElementById doc "contactForm" <;> simp

theorem submitListeners_DOMContentLoaded (pathname : String) (doc : List Element) :
    (DOMContentLoaded pathname doc).page.submitListeners =
      (getElementById doc "contactForm").toList := by
  unfold DOMContentLoaded Page.load
  dsimp only
  cases getElementById doc "contactForm" <;> simp

/-! ### Facts about `split` -/

theorem split_ne_nil (sep : Char) (cs : List Char) : split sep cs ≠ [] := by
  cases cs with
  | nil => simp [split]
  | cons c cs =>
    unfold split
    split
    · simp
    · split <;> simp

theorem pop_split_of_not_mem (sep : Char) (cs : List Char) (h : sep ∉ cs) :
    split sep cs = [cs] := by
  induction cs with
  | nil => rfl
  | cons c cs ih =>
    have hc : c ≠ sep := fun e => h (by simp [e])
    have hcs : sep ∉ cs := fun e => h (by simp [e])
    simp [split, hc, ih hcs]

theorem getLast?_split_cons (sep c : Char) (cs : List Char) (h : sep ∈ cs) :
    (split sep (c :: cs)).getLast? = (split sep cs).getLast? := by
  have hne := split_ne_nil sep cs
  cases hs : split sep cs with
  | nil => exact absurd hs hne
  | cons seg rest =>
    have hrest : rest ≠ [] := by
      intro hr
      subst hr
      clear hne
      induction cs generalizing seg with
      | nil => simp at h
      | cons d ds ih =>
        unfold split at hs
        split at hs
        · have := split_ne_nil sep ds
          simp at hs
          exact this hs.2
        · rename_i hd
          have hds : sep ∈ ds := by
            rcases List.mem_cons.1 h with e | e
            · exact absurd e.symm hd
            · exact e
          cases hs2 : split sep ds with
          | nil => exact split_ne_nil sep ds hs2
          | cons seg2 rest2 =>
            rw [hs2] at hs
            simp at hs
            exact ih hds seg2 (by rw [hs2, hs.2])
    unfold split
    split
    · rw [hs]; simp [List.getLast?_cons]
    · rw [hs]
      cases rest with
      | nil => exact absurd rfl hrest
      | cons r rs => simp [List.getLast?_cons]

theorem getLast?_split_append (sep : Char) (pre seg : List Char) (h : sep ∉ seg) :
    (split sep (pre ++ sep :: seg)).getLast? = some seg := by
  induction pre with
  | nil =>
    simp only [List.nil_append]
    unfold split
    simp only [if_true]
    rw [pop_split_of_not_mem sep seg h]
    simp [List.getLast?_cons]
  | cons c cs ih =>
    rw [List.cons_append, getLast?_split_cons sep c _ (by simp), ih]

/-- The page name of a path without `'/'` is the path itself, or the default. -/
theorem currentPage_of_no_slash (p : String) (h : '/' ∉ p.data) :
    currentPage p = if p = "" then "index.html" else p := by
  unfold currentPage pop
  rw [pop_split_of_not_mem _ _ h]
  obtain ⟨cs⟩ := p
  cases cs <;> simp [String.ext_iff]

/-- The page name of `pre ++ "/" ++ seg`, `seg` free of `'/'`, is `seg` or the default. -/
theorem currentPage_of_last_slash (pre seg : String) (h : '/' ∉ seg.data) :
    currentPage (pre ++ "/" ++ seg) = if seg = "" then "index.html" else seg := by
  unfold currentPage pop
  have hd : (pre ++ "/" ++ seg).data = pre.data ++ '/' :: seg.data := by
    simp [String.data_append]
  rw [hd, getLast?_split_append _ _ _ h]
  obtain ⟨cs⟩ := seg
  cases cs <;> simp [String.ext_iff]

/-- A list that contains `sep` splits at its last occurrence. -/
theorem exists_last_occurrence (sep : Char) (l : List Char) (h : sep ∈ l) :
    ∃ pre seg, l = pre ++ sep :: seg ∧ sep ∉ seg := by
  induction l with
  | nil => simp at h
  | cons c cs ih =>
    by_cases hcs : sep ∈ cs
    · obtain ⟨pre, seg, hl, hs⟩ := ih hcs
      exact ⟨c :: pre, seg, by rw [hl]; rfl, hs⟩
    · have hc : sep = c := by
        rcases List.mem_cons.1 h with e | e
        · exact e
        · exact absurd e hcs
      exact ⟨[], cs, by rw [hc]; rfl, hcs⟩

/-- Claim C1: the page name computed from a path `p` is the part of `p` after its
last `'/'` (all of `p` when it has no `'/'`), and `"index.html"` when that part is
empty: `"/"` and `""` give `"index.html"`, `"/projects.html"` gives
`"projects.html"`, and every path ending in `'/'` gives `"index.html"`. Every path
is of one of the two shapes. -/
theorem C1_currentPage_last_segment :
    (∀ pre seg : String, '/' ∉ seg.data →
      currentPage (pre ++ "/" ++ seg) = if seg = "" then "index.html" else seg) ∧
    (∀ p : String, '/' ∉ p.data →
      currentPage p = if p = "" then "index.html" else p) ∧
    (∀ p : String, '/' ∉ p.data ∨ ∃ pre seg : String, p = pre ++ "/" ++ seg ∧ '/' ∉ seg.data) ∧
    currentPage "/" = "index.html" ∧
    currentPage "" = "index.html" ∧
    currentPage "/projects.html" = "projects.html" ∧
    (∀ pre : String, currentPage (pre ++ "/") = "index.html") := by
  refine ⟨currentPage_of_last_slash, currentPage_of_no_slash, ?_, by decide, by decide,
    by decide, ?_⟩
  · intro p
    by_cases h : '/' ∈ p.data
    · obtain ⟨pre, seg, hl, hs⟩ := exists_last_occurrence '/' p.data h
      refine Or.inr ⟨String.mk pre, String.mk seg, ?_, hs⟩
      apply String.ext
      simp [String.data_append, hl]
    · exact Or.inl h
  · intro pre
    have := currentPage_of_last_slash pre "" (by simp)
    simpa using this

/-! ## Navigation links -/

theorem getAttributeHref_DOMContentLoaded (pathname : String) (doc : List Element) (i : Nat) :
    getAttributeHref (DOMContentLoaded pathname doc).page.dom i = getAttributeHref doc i := by
  unfold getAttributeHref
  rw [dom_DOMContentLoaded]
  cases doc[i]? with
  | none => rfl
  | some e =>
    simp only [Option.map_some', Option.some_bind]
    split <;> split <;> simp [href_markIfCurrent, hideElement]

/-- After loading, a navigation link that was not active is active exactly when
its href is the page name. -/
theorem active_DOMContentLoaded (pathname : String) (doc : List Element) (i : Nat)
    (hi : i ∈ querySelectorAll matchesNavLink doc)
    (hb : classListContains doc i "active" = false) :
    classListContains (DOMContentLoaded pathname doc).page.dom i "active" = true ↔
      getAttributeHref doc i = some (currentPage pathname) := by
  unfold classListContains getAttributeHref at *
  rw [dom_DOMContentLoaded]
  cases hd : doc[i]? with
  | none =>
    simp
  | some e =>
    rw [hd] at hb
    have hb' : "active" ∉ e.classList := by simpa using hb
    simp only [Option.map_some', Option.some_bind, hi, if_true, decide_eq_true_eq]
    split
    · have h1 : "active" ∉ (hideElement e).classList := hb'
      rw [active_mem_markIfCurrent _ _ h1]
      rfl
    · exact active_mem_markIfCurrent _ _ hb'

/-- Claim C2: for every pathname and every list of navigation links none of which
is active before loading, after loading a link carries the class `active` if and
only if its href attribute is equal, as a string, to the computed page name; for
the pathname `/projects.html` a link with href `projects.html` is active and a link
with href `index.html` is not. -/
theorem C2_active_iff_href_is_current_page (pathname : String) (doc : List Element)
    (hbefore : ∀ i ∈ querySelectorAll matchesNavLink doc,
      classListContains doc i "active" = false) :
    (∀ i ∈ querySelectorAll matchesNavLink doc,
      (classListContains (DOMContentLoaded pathname doc).page.dom i "active" = true ↔
        getAttributeHref (DOMContentLoaded pathname doc).page.dom i =
          some (currentPage pathname))) ∧
    (pathname = "/projects.html" →
      ∀ i ∈ querySelectorAll matchesNavLink doc,
        (getAttributeHref (DOMContentLoaded pathname doc).page.dom i = some "projects.html" →
          classListContains (DOMContentLoaded pathname doc).page.dom i "active" = true) ∧
        (getAttributeHref (DOMContentLoaded pathname doc).page.dom i = some "index.html" →
          classListContains (DOMContentLoaded pathname doc).page.dom i "active" = false)) := by
  have main : ∀ i ∈ querySelectorAll matchesNavLink doc,
      (classListContains (DOMContentLoaded pathname doc).page.dom i "active" = true ↔
        getAttributeHref (DOMContentLoaded pathname doc).page.dom i =
          some (currentPage pathname)) := by
    intro i hi
    rw [getAttributeHref_DOMContentLoaded]
    exact active_DOMContentLoaded pathname doc i hi (hbefore i hi)
  refine ⟨main, ?_⟩
  intro hp i hi
  have hcp : currentPage pathname = "projects.html" := by rw [hp]; decide
  have hm := main i hi
  rw [hcp] at hm
  refine ⟨fun h => hm.2 h, fun h => ?_⟩
  cases hc : classListContains (DOMContentLoaded pathname doc).page.dom i "active" with
  | false => rfl
  | true =>
    have := hm.1 hc
    rw [h] at this
    exact absurd this (by decide)

/-- On the sample page loaded at `/projects.html`, the link to `projects.html`
(position 2) is the active one and the link to `index.html` (position 1) is not. -/
theorem C2_active_iff_href_is_current_page_witness :
    (classListContains (DOMContentLoaded "/projects.html" samplePage).page.dom 2 "active" = true ∧
      classListContains (DOMContentLoaded "/projects.html" samplePage).page.dom 1 "active" =
        false) ∧
    querySelectorAll matchesNavLink samplePage = [1, 2, 3] := by
  have h := C2_active_iff_href_is_current_page "/projects.html" samplePage (by decide)
  refine ⟨⟨(h.2 rfl 2 (by decide)).1 (by decide), (h.2 rfl 1 (by decide)).2 (by decide)⟩,
    by decide⟩

/-- Counterexample to claim C3 as stated: on a navigation bar with two links to
`index.html`, neither active beforehand, loading the path `/` makes both active. -/
theorem C3_two_links_become_active :
    querySelectorAll matchesNavLink twoHomeLinks = [1, 2, 3] ∧
    (∀ i ∈ querySelectorAll matchesNavLink twoHomeLinks,
      classListContains twoHomeLinks i "active" = false) ∧
    classListContains (DOMContentLoaded "/" twoHomeLinks).page.dom 1 "active" = true ∧
    classListContains (DOMContentLoaded "/" twoHomeLinks).page.dom 2 "active" = true ∧
    (1 : Nat) ≠ 2 := by
  decide

/-- Claim C3, amended: for every pathname and every list of navigation links (none
active beforehand), the links that receive the class `active` during loading are
exactly those whose href equals the computed page name, however many they are;
when no two navigation links have that href, at most one link receives it. -/
theorem C3_active_links_are_those_matching (pathname : String) (doc : List Element)
    (hbefore : ∀ i ∈ querySelectorAll matchesNavLink doc,
      classListContains doc i "active" = false) :
    (∀ i ∈ querySelectorAll matchesNavLink doc,
      (classListContains (DOMContentLoaded pathname doc).page.dom i "active" = true ↔
        getAttributeHref doc i = some (currentPage pathname))) ∧
    ((∀ i ∈ querySelectorAll matchesNavLink doc,
        ∀ j ∈ querySelectorAll matchesNavLink doc,
          getAttributeHref doc i = some (currentPage pathname) →
          getAttributeHref doc j = some (currentPage pathname) → i = j) →
      ∀ i ∈ querySelectorAll matchesNavLink doc,
        ∀ j ∈ querySelectorAll matchesNavLink doc,
          classListContains (DOMContentLoaded pathname doc).page.dom i "active" = true →
          classListContains (DOMContentLoaded pathname doc).page.dom j "active" = true →
          i = j) := by
  have main : ∀ i ∈ querySelectorAll matchesNavLink doc,
      (classListContains (DOMContentLoaded pathname doc).page.dom i "active" = true ↔
        getAttributeHref doc i = some (currentPage pathname)) :=
    fun i hi => active_DOMContentLoaded pathname doc i hi (hbefore i hi)
  refine ⟨main, ?_⟩
  intro hunique i hi j hj hai haj
  exact hunique i hi j hj ((main i hi).1 hai) ((main j hj).1 haj)

/-- On the bar with two links to `index.html`, loaded at `/`, the theorem gives both
links the class and withholds it from the link to `projects.html`; on the sample
page, where one link matches, it gives that no two links are active. -/
theorem C3_active_links_are_those_matching_witness :
    (classListContains (DOMContentLoaded "/" twoHomeLinks).page.dom 1 "active" = true ∧
      classListContains (DOMContentLoaded "/" twoHomeLinks).page.dom 2 "active" = true ∧
      ¬ classListContains (DOMContentLoaded "/" twoHomeLinks).page.dom 3 "active" = true) ∧
    (∀ i ∈ querySelectorAll matchesNavLink samplePage,
      ∀ j ∈ querySelectorAll matchesNavLink samplePage,
        classListContains (DOMContentLoaded "/projects.html" samplePage).page.dom i "active" =
          true →
        classListContains (DOMContentLoaded "/projects.html" samplePage).page.dom j "active" =
          true →
        i = j) :=
  have h2 := C3_active_links_are_those_matching "/" twoHomeLinks (by decide)
  have h1 := C3_active_links_are_those_matching "/projects.html" samplePage (by decide)
  ⟨⟨(h2.1 1 (by decide)).2 (by decide), (h2.1 2 (by decide)).2 (by decide),
      fun h => absurd ((h2.1 3 (by decide)).1 h) (by decide)⟩,
    h1.2 (by decide)⟩

/-! ## Scroll-triggered reveal -/

theorem reveal_idem (e : Element) : reveal (reveal e) = reveal e := rfl

theorem reveal_of_revealed (e : Element) (h : revealed e) : reveal e = e := by
  obtain ⟨tag, id, cl, href, parent, ⟨op, tr, tn⟩, value, dv, form, name, type⟩ := e
  obtain ⟨h1, h2⟩ := h
  simp only at h1 h2
  subst h1 h2
  rfl

theorem revealed_reveal (e : Element) : revealed (reveal e) := ⟨rfl, rfl⟩

theorem getElem?_revealEntry (d : List Element) (en : IntersectionObserverEntry) (j : Nat) :
    (revealEntry d en)[j]? =
      if (en.isIntersecting && en.target == j) = true then (d[j]?).map reveal else d[j]? := by
  unfold revealEntry
  cases hI : en.isIntersecting with
  | false => simp
  | true =>
    rw [if_pos rfl, getElem?_modifyElement]
    by_cases h : en.target = j <;> simp [h]

theorem getElem?_foldl_revealEntry (entries : List IntersectionObserverEntry)
    (d : List Element) (j : Nat) :
    (entries.foldl revealEntry d)[j]? =
      if entries.any (fun en => en.isIntersecting && en.target == j) = true
      then (d[j]?).map reveal else d[j]? := by
  induction entries generalizing d with
  | nil => simp
  | cons en entries ih =>
    rw [List.foldl_cons, ih, getElem?_revealEntry, List.any_cons]
    cases h1 : (en.isIntersecting && en.target == j) <;>
      cases h2 : entries.any (fun en => en.isIntersecting && en.target == j) <;>
      cases d[j]? <;> simp [reveal_idem]

theorem getElem?_deliver (batches : List (List Observation)) (s : Page) (j : Nat) :
    (deliver batches s).dom[j]? =
      if batches.any (fun b =>
          (entriesOf s.observed b).any fun en => en.isIntersecting && en.target == j) = true
      then (s.dom[j]?).map reveal else s.dom[j]? := by
  unfold deliver
  induction batches generalizing s with
  | nil => simp
  | cons b batches ih =>
    rw [List.foldl_cons, ih, List.any_cons]
    simp only [observerCallback]
    rw [getElem?_foldl_revealEntry]
    cases h1 : (entriesOf s.observed b).any (fun en => en.isIntersecting && en.target == j) <;>
      cases h2 : batches.any (fun b =>
        (entriesOf s.observed b).any fun en => en.isIntersecting && en.target == j) <;>
      cases s.dom[j]? <;> simp [reveal_idem]

/-- An entry built for the observer of the script is intersecting exactly when its
ratio has reached 0.1. -/
theorem isIntersecting_entryOf (o : Observation) :
    (entryOf observerOptions o).isIntersecting = true ↔ o.intersectionRatio ≥ 1 / 10 := by
  simp [entryOf, observerOptions]

theorem styleOf_DOMContentLoaded (pathname : String) (doc : List Element) (i : Nat) :
    styleOf (DOMContentLoaded pathname doc).page.dom i =
      if i ∈ querySelectorAll matchesAnimated doc then
        (doc[i]?).map fun _ =>
          ({ opacity := "0", transform := "translateY(20px)",
             transition := "opacity 0.5s ease, transform 0.5s ease" } : Style)
      else styleOf doc i := by
  unfold styleOf
  rw [dom_DOMContentLoaded]
  cases doc[i]? with
  | none => simp
  | some e =>
    by_cases h1 : i ∈ querySelectorAll matchesNavLink doc <;>
      by_cases h2 : i ∈ querySelectorAll matchesAnimated doc <;>
      simp [h1, h2, style_markIfCurrent, hideElement]

theorem matchesAnimated_iff (doc : List Element) (i : Nat) (e : Element)
    (he : doc[i]? = some e) :
    i ∈ querySelectorAll matchesAnimated doc ↔
      ("skill-card" ∈ e.classList ∨ "project-card" ∈ e.classList ∨
        "stat-card" ∈ e.classList) := by
  have hlt : i < doc.length := by
    by_contra hge
    rw [List.getElem?_eq_none (by omega)] at he
    exact Option.noConfusion he
  rw [mem_querySelectorAll]
  unfold matchesAnimated
  simp [he, hlt, or_assoc]

/-- Claim C9: every element that matches `.skill-card`, `.project-card` or
`.stat-card` when the page loads has, right after loading, opacity `0`, transform
`translateY(20px)` and transition `opacity 0.5s ease, transform 0.5s ease`, and is
registered with the observer exactly once; every other element keeps its style
(and is not observed). -/
theorem C9_animated_elements_hidden_and_observed_once (pathname : String)
    (doc : List Element) :
    (∀ (i : Nat) (e : Element), doc[i]? = some e →
      ("skill-card" ∈ e.classList ∨ "project-card" ∈ e.classList ∨
        "stat-card" ∈ e.classList) →
      styleOf (DOMContentLoaded pathname doc).page.dom i =
          some ⟨"0", "translateY(20px)", "opacity 0.5s ease, transform 0.5s ease"⟩ ∧
        (DOMContentLoaded pathname doc).page.observed.count i = 1) ∧
    (∀ (i : Nat) (e : Element), doc[i]? = some e →
      ¬ ("skill-card" ∈ e.classList ∨ "project-card" ∈ e.classList ∨
        "stat-card" ∈ e.classList) →
      styleOf (DOMContentLoaded pathname doc).page.dom i = some e.style ∧
        (DOMContentLoaded pathname doc).page.observed.count i = 0) := by
  constructor
  · intro i e he hm
    have hi := (matchesAnimated_iff doc i e he).2 hm
    rw [styleOf_DOMContentLoaded, if_pos hi, observed_DOMContentLoaded, he]
    exact ⟨rfl, List.count_eq_one_of_mem (querySelectorAll_nodup _ _) hi⟩
  · intro i e he hm
    have hi : i ∉ querySelectorAll matchesAnimated doc :=
      fun h => hm ((matchesAnimated_iff doc i e he).1 h)
    rw [styleOf_DOMContentLoaded, if_neg hi, observed_DOMContentLoaded]
    refine ⟨by simp [styleOf, he], List.count_eq_zero_of_not_mem hi⟩

/-- Claim C8: for every batch of entries handed to the observer callback, every
target of an entry with `isIntersecting` true has opacity `1` and transform
`translateY(0)` afterwards, every element that had them before is left as it was,
and handing the same batch over again changes nothing. -/
theorem C8_reveal_is_monotonic (s : Page) (entries : List IntersectionObserverEntry) :
    (∀ en ∈ entries, en.isIntersecting = true → en.target < s.dom.length →
      ∃ e, (observerCallback entries s).page.dom[en.target]? = some e ∧ revealed e) ∧
    (∀ (i : Nat) (e : Element), s.dom[i]? = some e → revealed e →
      (observerCallback entries s).page.dom[i]? = some e) ∧
    (observerCallback entries (observerCallback entries s).page).page =
      (observerCallback entries s).page := by
  refine ⟨?_, ?_, ?_⟩
  · intro en hen hI hlt
    have hany : entries.any (fun x => x.isIntersecting && x.target == en.target) = true :=
      List.any_eq_true.2 ⟨en, hen, by simp [hI]⟩
    simp only [observerCallback]
    rw [getElem?_foldl_revealEntry, if_pos hany, List.getElem?_eq_getElem hlt]
    exact ⟨_, rfl, revealed_reveal _⟩
  · intro i e he hr
    simp only [observerCallback]
    rw [getElem?_foldl_revealEntry, he]
    split
    · simp [reveal_of_revealed e hr]
    · rfl
  · simp only [observerCallback]
    congr 1
    apply List.ext_getElem?
    intro j
    rw [getElem?_foldl_revealEntry, getElem?_foldl_revealEntry]
    split
    · cases s.dom[j]? <;> simp [reveal_idem]
    · rfl

/-- Claim C7: after loading and any delivery of intersection entries by the
observer of lines 40-52, an animated element has opacity `1` and transform
`translateY(0)` only if some entry already delivered for that element had a
visible ratio of at least 0.1. -/
theorem C7_revealed_only_after_ratio_reached (pathname : String) (doc : List Element)
    (batches : List (List Observation)) (i : Nat)
    (hi : i ∈ querySelectorAll matchesAnimated doc)
    (hrev : ∃ e, (deliver batches (DOMContentLoaded pathname doc).page).dom[i]? = some e ∧
      revealed e) :
    ∃ b ∈ batches, ∃ en ∈ entriesOf (DOMContentLoaded pathname doc).page.observed b,
      en.target = i ∧ en.intersectionRatio ≥ 1 / 10 := by
  by_contra hno
  have hany : ¬ (batches.any (fun b =>
      (entriesOf (DOMContentLoaded pathname doc).page.observed b).any
        fun en => en.isIntersecting && en.target == i) = true) := by
    intro h
    obtain ⟨b, hb, hb2⟩ := List.any_eq_true.1 h
    obtain ⟨en, hen, hen2⟩ := List.any_eq_true.1 hb2
    simp only [Bool.and_eq_true, beq_iff_eq] at hen2
    refine hno ⟨b, hb, en, hen, hen2.2, ?_⟩
    unfold entriesOf at hen
    obtain ⟨o, _, ho⟩ := List.mem_map.1 hen
    subst ho
    exact (isIntersecting_entryOf o).1 hen2.1
  obtain ⟨e, he, hr⟩ := hrev
  rw [getElem?_deliver, if_neg hany] at he
  have hs := styleOf_DOMContentLoaded pathname doc i
  rw [if_pos hi] at hs
  unfold styleOf at hs
  rw [he] at hs
  cases hd : doc[i]? with
  | none => rw [hd] at hs; simp at hs
  | some e0 =>
    rw [hd] at hs
    simp only [Option.map_some', Option.some.injEq] at hs
    have := hr.1
    rw [hs] at this
    exact absurd this (by decide)

/-- On the one-card page the card is revealed once half of it is visible. -/
theorem C7_revealed_only_after_ratio_reached_witness :
    ∃ b ∈ [[(⟨0, 1 / 2⟩ : Observation)]],
      ∃ en ∈ entriesOf (DOMContentLoaded "/" oneCard).page.observed b,
        en.target = 0 ∧ en.intersectionRatio ≥ 1 / 10 :=
  C7_revealed_only_after_ratio_reached "/" oneCard [[⟨0, 1 / 2⟩]] 0 (by decide)
    ⟨reveal (hideElement (oneCard.get ⟨0, by decide⟩)), by
      rw [getElem?_deliver]
      have hobs : (DOMContentLoaded "/" oneCard).page.observed = [0] := by decide
      have hany : ([[(⟨0, 1 / 2⟩ : Observation)]].any fun b =>
          (entriesOf (DOMContentLoaded "/" oneCard).page.observed b).any
            fun en => en.isIntersecting && en.target == 0) = true := by
        rw [hobs]
        simp only [entriesOf, entryOf, observerOptions, List.any_cons, List.any_nil,
          List.filter, List.map]
        norm_num
      rw [if_pos hany]
      decide, ⟨rfl, rfl⟩⟩

/-! ## Contact form -/

theorem valueOf_reset (dom : List Element) (f i : Nat) (e : Element) (he : dom[i]? = some e) :
    valueOf (reset dom f) i =
      if e.form = some f ∧ isResettable e = true then some e.defaultValue else e.value := by
  unfold valueOf reset
  rw [List.getElem?_map, he]
  simp only [Option.map_some', Option.some_bind]
  split <;> rfl

/-- Counterexample to claim C4 as stated: the name field of `prefilledForm` holds
`Ada`; after the submit it holds its default value `Your name`, not the empty
string. On `formWithResetButton` the button with id `reset` takes the place of the
method of the form: the acknowledgment is shown, then the handler raises
`TypeError` and the name field still holds `Ada`. -/
theorem C4_prefilled_field_not_cleared :
    (getElementById prefilledForm "name" = some 1 ∧
      valueOf (DOMContentLoaded "/" prefilledForm).page.dom 1 = some "Ada" ∧
      (submit 0 (DOMContentLoaded "/" prefilledForm).page).thrown = none ∧
      valueOf (submit 0 (DOMContentLoaded "/" prefilledForm).page).page.dom 1 =
        some "Your name" ∧
      valueOf (submit 0 (DOMContentLoaded "/" prefilledForm).page).page.dom 1 ≠ some "") ∧
    (hasNamedProperty formWithResetButton 0 "reset" = true ∧
      (submit 0 (DOMContentLoaded "/" formWithResetButton).page).thrown =
        some JSError.TypeError ∧
      (submit 0 (DOMContentLoaded "/" formWithResetButton).page).page.alerts =
        [acknowledgment "Ada" "ada@example.com"] ∧
      valueOf (submit 0 (DOMContentLoaded "/" formWithResetButton).page).page.dom 1 =
        some "Ada") := by
  decide

/-- Claim C4, amended: for every triple of strings (name, email, message) held by
the three fields, empty strings included, the submit handler of the contact form
prevents the default action and shows exactly one acknowledgment, whose text is
`Thank you, ` name `! Your message has been received. We'll get back to you at `
email ` soon.`; when no control of the form has the id or name `reset`, it then
completes without an exception and resets the form: each of the three fields that
is a control of the form holds its default value afterwards, so it is cleared when
that default is empty. -/
theorem C4_submit_acknowledges_and_resets (pathname : String) (doc : List Element)
    (p : Page) (f n m g : Nat) (name email message : String)
    (hform : getElementById doc "contactForm" = some f)
    (hlisten : p.submitListeners = (DOMContentLoaded pathname doc).page.submitListeners)
    (htag : (p.dom[f]?).map Element.tag = some "form")
    (hn : getElementById p.dom "name" = some n) (hname : valueOf p.dom n = some name)
    (hm : getElementById p.dom "email" = some m) (hemail : valueOf p.dom m = some email)
    (hg : getElementById p.dom "message" = some g)
    (hmessage : valueOf p.dom g = some message) :
    (submit f p).defaultPrevented = true ∧
    (submit f p).page.alerts =
      p.alerts ++
        ["Thank you, " ++ name ++
          "! Your message has been received. We'll get back to you at " ++ email ++ " soon."] ∧
    (hasNamedProperty p.dom f "reset" = false →
      (submit f p).thrown = none ∧
      ∀ i ∈ [n, m, g], ∀ e, p.dom[i]? = some e → e.form = some f → isResettable e = true →
        valueOf (submit f p).page.dom i = some e.defaultValue ∧
          (e.defaultValue = "" → valueOf (submit f p).page.dom i = some "")) := by
  have _ := hmessage
  have hmem : f ∈ p.submitListeners := by
    rw [hlisten, submitListeners_DOMContentLoaded, hform]
    simp
  obtain ⟨fe, hfe, hfetag⟩ : ∃ fe, p.dom[f]? = some fe ∧ fe.tag = "form" := by
    cases h : p.dom[f]? with
    | none => rw [h] at htag; simp at htag
    | some fe => rw [h] at htag; exact ⟨fe, rfl, by simpa using htag⟩
  have hsub : submit f p =
      if hasNamedProperty p.dom f "reset" = true then
        ⟨{ p with alerts := p.alerts ++ [acknowledgment name email] }, true,
          some JSError.TypeError⟩
      else
        ⟨{ p with
            alerts := p.alerts ++ [acknowledgment name email]
            dom := reset p.dom f }, true, none⟩ := by
    unfold submit
    rw [if_pos hmem]
    unfold submitHandler
    simp only [hn, hm, hg, hname, hemail, hfe, hfetag, valueToString, if_true]
  rw [hsub]
  refine ⟨?_, ?_, ?_⟩
  · split <;> rfl
  · split <;> rfl
  · intro hshadow
    rw [if_neg (by rw [hshadow]; exact Bool.false_ne_true)]
    refine ⟨rfl, ?_⟩
    intro i _ e he hown hres
    have hv := valueOf_reset p.dom f i e he
    rw [if_pos ⟨hown, hres⟩] at hv
    exact ⟨hv, fun h0 => by rw [hv, h0]⟩

/-- On the sample page the submit shows the acknowledgment for `Ada` and clears the
three fields, whose defaults are empty; on the form with a button of id `reset` it
shows the acknowledgment as well. -/
theorem C4_submit_acknowledges_and_resets_witness :
    ((submit 6 (DOMContentLoaded "/" samplePage).page).defaultPrevented = true ∧
      (submit 6 (DOMContentLoaded "/" samplePage).page).page.alerts =
        (DOMContentLoaded "/" samplePage).page.alerts ++
          ["Thank you, " ++ "Ada" ++
            "! Your message has been received. We'll get back to you at " ++
              "ada@example.com" ++ " soon."] ∧
      (submit 6 (DOMContentLoaded "/" samplePage).page).thrown = none ∧
      ∀ i ∈ [7, 8, 9], ∀ e, (DOMContentLoaded "/" samplePage).page.dom[i]? = some e →
        e.form = some 6 → isResettable e = true →
        valueOf (submit 6 (DOMContentLoaded "/" samplePage).page).page.dom i =
            some e.defaultValue ∧
          (e.defaultValue = "" →
            valueOf (submit 6 (DOMContentLoaded "/" samplePage).page).page.dom i = some "")) ∧
    (submit 0 (DOMContentLoaded "/" formWithResetButton).page).page.alerts =
      (DOMContentLoaded "/" formWithResetButton).page.alerts ++
        ["Thank you, " ++ "Ada" ++
          "! Your message has been received. We'll get back to you at " ++
            "ada@example.com" ++ " soon."] :=
  have h := C4_submit_acknowledges_and_resets "/" samplePage
    (DOMContentLoaded "/" samplePage).page 6 7 8 9 "Ada" "ada@example.com" "Hi" (by decide) rfl
    (by decide) (by decide) (by decide) (by decide) (by decide) (by decide) (by decide)
  have h2 := C4_submit_acknowledges_and_resets "/" formWithResetButton
    (DOMContentLoaded "/" formWithResetButton).page 0 1 2 3 "Ada" "ada@example.com" "Hi"
    (by decide) rfl (by decide) (by decide) (by decide) (by decide) (by decide) (by decide)
    (by decide)
  ⟨⟨h.1, h.2.1, (h.2.2 (by decide)).1, (h.2.2 (by decide)).2⟩, h2.2.1⟩

/-! ## Fragment anchors -/

theorem getElementById_eq_none (dom : List Element) (id : String)
    (h : ∀ e ∈ dom, e.id ≠ some id) : getElementById dom id = none := by
  unfold getElementById querySelectorAll
  rw [List.head?_eq_none_iff, List.filter_eq_nil_iff]
  intro i hi
  have hlt : i < dom.length := List.mem_range.1 hi
  simp only [List.getElem?_eq_getElem hlt, Option.some_bind, decide_eq_true_eq]
  exact h _ (List.getElem_mem hlt)

/-- The lookup of `#` followed by an identifier is the lookup of that id. -/
theorem querySelector_ident (engine : List Element → String → Except JSError (Option Nat))
    (dom : List Element) (ident : String) (h : isSimpleIdent ident.data = true) :
    querySelector engine dom ("#" ++ ident) = Except.ok (getElementById dom ident) := by
  have hd : ("#" ++ ident).data = '#' :: ident.data := by
    simp [String.data_append]
  have hne : ident.data ≠ [] := by
    intro h0
    rw [h0] at h
    simp [isSimpleIdent] at h
  unfold querySelector
  rw [hd]
  simp only [hne, if_false, h, if_true]

/-- Claim C5 at an id that is no identifier: the anchor at position 0 of
`digitIdPage` has href `#1a` and the element with id `1a` is present, yet a click
issues no scroll request: the selector lookup raises `SyntaxError`, whatever the
rest of the selector engine does. The default navigation is prevented. -/
theorem C5_digit_id_click_raises
    (engine : List Element → String → Except JSError (Option Nat)) :
    0 ∈ querySelectorAll matchesFragmentAnchor digitIdPage ∧
    getAttributeHref (DOMContentLoaded "/" digitIdPage).page.dom 0 = some "#1a" ∧
    getElementById (DOMContentLoaded "/" digitIdPage).page.dom "1a" = some 1 ∧
    (click engine 0 (DOMContentLoaded "/" digitIdPage).page).thrown =
      some JSError.SyntaxError ∧
    (click engine 0 (DOMContentLoaded "/" digitIdPage).page).defaultPrevented = true ∧
    (click engine 0 (DOMContentLoaded "/" digitIdPage).page).page.scrolls = [] := by
  have hmem : 0 ∈ (DOMContentLoaded "/" digitIdPage).page.clickListeners := by decide
  have hq : querySelector engine (DOMContentLoaded "/" digitIdPage).page.dom
      (attrToString (((DOMContentLoaded "/" digitIdPage).page.dom[0]?).bind Element.href)) =
      Except.error JSError.SyntaxError := by
    have h : ((DOMContentLoaded "/" digitIdPage).page.dom[0]?).bind Element.href =
        some "#1a" := by
      decide
    rw [h]
    rfl
  have hclick : click engine 0 (DOMContentLoaded "/" digitIdPage).page =
      ⟨(DOMContentLoaded "/" digitIdPage).page, true, some JSError.SyntaxError⟩ := by
    unfold click
    rw [if_pos hmem]
    unfold clickHandler
    rw [hq]
  rw [hclick]
  exact ⟨by decide, by decide, by decide, rfl, rfl, by decide⟩

/-- Claim C6 at the bare href `#`: the anchor at position 10 of the sample page has
href `#`, no element has an empty id, and a click on it prevents the default
navigation and issues no scroll request, but the selector lookup raises
`SyntaxError`, whatever the rest of the selector engine does. -/
theorem C6_bare_hash_click_raises
    (engine : List Element → String → Except JSError (Option Nat)) :
    10 ∈ querySelectorAll matchesFragmentAnchor samplePage ∧
    getAttributeHref (DOMContentLoaded "/" samplePage).page.dom 10 = some "#" ∧
    (∀ e ∈ samplePage, e.id ≠ some "") ∧
    (click engine 10 (DOMContentLoaded "/" samplePage).page).thrown =
      some JSError.SyntaxError ∧
    (click engine 10 (DOMContentLoaded "/" samplePage).page).defaultPrevented = true ∧
    (click engine 10 (DOMContentLoaded "/" samplePage).page).page.scrolls = [] := by
  have hmem : 10 ∈ (DOMContentLoaded "/" samplePage).page.clickListeners := by decide
  have hq : querySelector engine (DOMContentLoaded "/" samplePage).page.dom
      (attrToString (((DOMContentLoaded "/" samplePage).page.dom[10]?).bind Element.href)) =
      Except.error JSError.SyntaxError := by
    have h : ((DOMContentLoaded "/" samplePage).page.dom[10]?).bind Element.href = some "#" := by
      decide
    rw [h]
    rfl
  have hclick : click engine 10 (DOMContentLoaded "/" samplePage).page =
      ⟨(DOMContentLoaded "/" samplePage).page, true, some JSError.SyntaxError⟩ := by
    unfold click
    rw [if_pos hmem]
    unfold clickHandler
    rw [hq]
  rw [hclick]
  exact ⟨by decide, by decide, by decide, rfl, rfl, by decide⟩

/-! ## Missing markup -/

theorem classList_DOMContentLoaded_of_no_navLinks (pathname : String) (doc : List Element)
    (h : querySelectorAll matchesNavLink doc = []) (i : Nat) :
    ((DOMContentLoaded pathname doc).page.dom[i]?).map Element.classList =
      (doc[i]?).map Element.classList := by
  rw [dom_DOMContentLoaded, h]
  cases doc[i]? with
  | none => rfl
  | some e =>
    simp only [Option.map_some', List.not_mem_nil, if_false]
    split <;> rfl

/-- Counterexample to claim C10 as stated: with the form present and its fields
absent, the submit handler raises `TypeError` before any acknowledgment is shown. -/
theorem C10_missing_field_raises :
    getElementById formWithoutFields "contactForm" = some 0 ∧
    getElementById formWithoutFields "name" = none ∧
    (DOMContentLoaded "/" formWithoutFields).thrown = none ∧
    (submit 0 (DOMContentLoaded "/" formWithoutFields).page).thrown =
      some JSError.TypeError ∧
    (submit 0 (DOMContentLoaded "/" formWithoutFields).page).page.alerts = [] := by
  decide

/-- Claim C10, amended: loading never raises, whatever the document lacks. Without
the `contactForm` element no submit listener exists and a submit does nothing;
with it, the submit handler completes without raising when the element is a form
none of whose controls has the id or name `reset`, and the `name`, `email` and
`message` elements exist. Without fragment anchors no click listener exists and a
click does nothing; a click on a fragment anchor whose href is `#` followed by an
identifier that is the id of no element (compared without regard to ASCII case)
raises nothing, issues no scroll request and prevents the default navigation.
Without animation targets nothing is observed and no style changes; without
navigation links no class list changes; the observer callback never raises. Here
`p` is the page at the time of the event, with the listeners registered by loading. -/
theorem C10_missing_markup_is_inert
    (engine : List Element → String → Except JSError (Option Nat)) (pathname : String)
    (doc : List Element) (p : Page)
    (hsubmit : p.submitListeners = (DOMContentLoaded pathname doc).page.submitListeners)
    (hclick : p.clickListeners = (DOMContentLoaded pathname doc).page.clickListeners) :
    (DOMContentLoaded pathname doc).thrown = none ∧
    (getElementById doc "contactForm" = none → ∀ t, submit t p = ⟨p, false, none⟩) ∧
    (∀ f, getElementById doc "contactForm" = some f →
      (p.dom[f]?).map Element.tag = some "form" →
      hasNamedProperty p.dom f "reset" = false →
      (getElementById p.dom "name").isSome = true →
      (getElementById p.dom "email").isSome = true →
      (getElementById p.dom "message").isSome = true →
      (submit f p).thrown = none) ∧
    (querySelectorAll matchesFragmentAnchor doc = [] →
      ∀ t, click engine t p = ⟨p, false, none⟩) ∧
    (∀ link ∈ querySelectorAll matchesFragmentAnchor doc, ∀ ident : String,
      getAttributeHref p.dom link = some ("#" ++ ident) →
      isSimpleIdent ident.data = true →
      (∀ e ∈ p.dom, ∀ id, e.id = some id → asciiLower id ≠ asciiLower ident) →
      click engine link p = ⟨p, true, none⟩) ∧
    (querySelectorAll matchesAnimated doc = [] →
      (DOMContentLoaded pathname doc).page.observed = [] ∧
        ∀ i, styleOf (DOMContentLoaded pathname doc).page.dom i = styleOf doc i) ∧
    (querySelectorAll matchesNavLink doc = [] →
      ∀ i : Nat, ((DOMContentLoaded pathname doc).page.dom[i]?).map Element.classList =
        (doc[i]?).map Element.classList) ∧
    (∀ entries, (observerCallback entries p).thrown = none) := by
  rw [submitListeners_DOMContentLoaded] at hsubmit
  rw [clickListeners_DOMContentLoaded] at hclick
  refine ⟨rfl, ?_, ?_, ?_, ?_, ?_, ?_, fun _ => rfl⟩
  · intro hnone t
    unfold submit
    rw [hsubmit, hnone]
    simp
  · intro f hf htag hshadow hn hm hg
    have hmem : f ∈ p.submitListeners := by rw [hsubmit, hf]; simp
    obtain ⟨n, hn⟩ := Option.isSome_iff_exists.1 hn
    obtain ⟨m, hm⟩ := Option.isSome_iff_exists.1 hm
    obtain ⟨g, hg⟩ := Option.isSome_iff_exists.1 hg
    obtain ⟨fe, hfe, hfetag⟩ : ∃ fe, p.dom[f]? = some fe ∧ fe.tag = "form" := by
      cases h : p.dom[f]? with
      | none => rw [h] at htag; simp at htag
      | some fe => rw [h] at htag; exact ⟨fe, rfl, by simpa using htag⟩
    unfold submit
    rw [if_pos hmem]
    unfold submitHandler
    simp only [hn, hm, hg, hfe, hfetag, hshadow, if_true]
    rfl
  · intro hnone t
    unfold click
    rw [hclick, hnone]
    simp
  · intro link hlink ident hhref hident hids
    have hmem : link ∈ p.clickListeners := by rw [hclick]; exact hlink
    have hnone : getElementById p.dom ident = none :=
      getElementById_eq_none p.dom ident fun e he heq =>
        hids e he ident heq rfl
    unfold click
    rw [if_pos hmem]
    unfold clickHandler
    unfold getAttributeHref at hhref
    rw [hhref]
    simp only [attrToString]
    rw [querySelector_ident engine p.dom ident hident, hnone]
  · intro hnone
    refine ⟨by rw [observed_DOMContentLoaded, hnone], fun i => ?_⟩
    rw [styleOf_DOMContentLoaded, hnone]
    simp
  · intro hnone i
    exact classList_DOMContentLoaded_of_no_navLinks pathname doc hnone i

/-- On the one-card page, which has no form, no anchors and no navigation links,
loading raises nothing and submits and clicks do nothing; on the sample page the
submit completes, and with the `#about` anchor moved to a page without that id the
click is swallowed. -/
theorem C10_missing_markup_is_inert_witness :
    ((DOMContentLoaded "/" oneCard).thrown = none ∧
      (∀ t, submit t (DOMContentLoaded "/" oneCard).page =
        ⟨(DOMContentLoaded "/" oneCard).page, false, none⟩) ∧
      (∀ t, click matchNothing t (DOMContentLoaded "/" oneCard).page =
        ⟨(DOMContentLoaded "/" oneCard).page, false, none⟩)) ∧
    (submit 6 (DOMContentLoaded "/" samplePage).page).thrown = none ∧
    click matchNothing 0 (DOMContentLoaded "/" danglingAnchor).page =
      ⟨(DOMContentLoaded "/" danglingAnchor).page, true, none⟩ :=
  have h := C10_missing_markup_is_inert matchNothing "/" oneCard
    (DOMContentLoaded "/" oneCard).page rfl rfl
  have hs := C10_missing_markup_is_inert matchNothing "/" samplePage
    (DOMContentLoaded "/" samplePage).page rfl rfl
  have hd := C10_missing_markup_is_inert matchNothing "/" danglingAnchor
    (DOMContentLoaded "/" danglingAnchor).page rfl rfl
  ⟨⟨h.1, h.2.1 (by decide), h.2.2.2.1 (by decide)⟩,
    hs.2.2.1 6 (by decide) (by decide) (by decide) (by decide) (by decide) (by decide),
    hd.2.2.2.2.1 0 (by decide) "about" (by decide) (by decide) (by decide)⟩

end Portfolio
